import Mathlib

/-!
Verification development for `src/FSAL_UP/fsal_up_async.c` (nfs-ganesha):
asynchrony wrappers for the FSAL upcall system.

Modelling conventions (shallow embedding of the C file):

* Pointers are modelled as natural numbers (addresses / opaque references).
* Caller memory is modelled explicitly: raw bytes as a function `Nat → Nat`
  (one byte per address) and, for each struct type the wrappers dereference
  (`*attr`, `*lock_param`, `*segment`, `*devid`, `*spec`), a typed store
  `Nat → <struct>`.  `memcpy(args->key, obj->addr, obj->len)` is modelled by
  reading the byte range at packaging time into a `List Nat` held inside the
  task value; `args->obj.addr = args->key` (the descriptor pointing at the
  inline copy) is modelled by the worker handing the operation exactly that
  copied list.
* The thread-pool collaborator (`fridgethr`, not part of src/) is modelled
  from the spec: `fridgethr_submit` returns `0` when the pool accepts the
  task (and then guarantees exactly one asynchronous invocation of the worker
  entry point on the task) or a nonzero POSIX-style rejection code.  A
  submission is modelled by its return code together with the task handed to
  the pool (`handedToPool`).
* Each worker entry point is modelled as a function from the task (and the
  environment supplying the capability tables) to the list of observable
  events it performs, in order: the capability-table call with the exact
  arguments passed, the optional callback invocation with the status the
  operation returned, and the release of the task allocation.
* The synchronous part of each `up_async_*` call is modelled by an
  `AsyncResult`: the returned `fsal_status_t`, the task handed to the pool
  (if accepted), and the synchronous events (the single allocation, plus the
  free on the rejection path).
-/

/-- `fsal_status_t`: a major FSAL error code plus a minor (errno) code. -/
structure fsal_status_t where
  major : Nat
  minor : Int
deriving DecidableEq, Repr

/-- `fsalstat(major, minor)` constructor from fsal.h. -/
def fsalstat (major : Nat) (minor : Int) : fsal_status_t :=
  { major := major, minor := minor }

/-- `state_status_t`: lock-state status domain, an enumeration code. -/
abbrev state_status_t := Nat

/-- `layouttype4`: pNFS layout type code. -/
abbrev layouttype4 := Nat

/-- `notify_deviceid_type4`: device-notification type code. -/
abbrev notify_deviceid_type4 := Nat

/-- An opaque reference to a `struct fsal_export` (a pointer value). -/
structure fsal_export where
  ref : Nat
deriving DecidableEq, Repr

/-- `struct gsh_buffdesc` as the caller supplies it: an address into caller
memory plus a byte length. -/
structure gsh_buffdesc where
  addr : Nat
  len : Nat
deriving DecidableEq, Repr

/-- Modelled from the spec: `struct attrlist` (fsal header not in src/), a
fixed-size attribute set copied by value; treated as an opaque datum. -/
structure attrlist where
  val : Nat
deriving DecidableEq, Repr

/-- Modelled from the spec: `fsal_lock_param_t` (header not in src/), a
fixed-size lock-parameter record copied by value; treated as an opaque datum. -/
structure fsal_lock_param_t where
  val : Nat
deriving DecidableEq, Repr

/-- Modelled from the spec: `struct pnfs_segment` (header not in src/), a
fixed-size layout-segment descriptor copied by value; opaque datum. -/
structure pnfs_segment where
  val : Nat
deriving DecidableEq, Repr

/-- Modelled from the spec: `struct pnfs_deviceid` (header not in src/), a
fixed-size device identifier copied by value; opaque datum. -/
structure pnfs_deviceid where
  val : Nat
deriving DecidableEq, Repr

/-- Modelled from the spec: the tag of `struct layoutrecall_spec` (header not
in src/).  `layoutrecall_not_specced` is the sentinel meaning "no recall
specification". -/
inductive layoutrecall_howspec where
  | layoutrecall_howspec_exists
  | layoutrecall_howspec_outstanding
  | layoutrecall_not_specced
deriving DecidableEq, Repr

/-- Modelled from the spec: `struct layoutrecall_spec` (header not in src/): a
tag plus a fixed-size payload (opaque), stored by value inside the task. -/
structure layoutrecall_spec where
  how : layoutrecall_howspec
  u : Nat
deriving DecidableEq, Repr

/-- The capability table (`struct fsal_up_vector`, reached as
`export->up_ops`).  Each slot is an opaque operation entry point; a buffdesc
argument handed to a slot is represented by the byte content it points at.
The argument shapes mirror exactly the calls made in `fsal_up_async.c`:
note that the `notify_device` slot takes no export and no key. -/
structure fsal_up_vector where
  invalidate : fsal_export → List Nat → Nat → fsal_status_t
  update : fsal_export → List Nat → attrlist → Nat → fsal_status_t
  lock_grant : fsal_export → List Nat → Nat → fsal_lock_param_t → state_status_t
  lock_avail : fsal_export → List Nat → Nat → fsal_lock_param_t → state_status_t
  layoutrecall : fsal_export → List Nat → layouttype4 → Bool → pnfs_segment →
    Nat → Option layoutrecall_spec → state_status_t
  notify_device : notify_deviceid_type4 → layouttype4 → pnfs_deviceid → Bool →
    state_status_t
  delegrecall : fsal_export → List Nat → state_status_t

/-- The external environment of the file: the per-export capability table
(the field read `export->up_ops`), the delegation-recall implementation
`delegrecall_impl` (sal_functions.h, external), and the error/status bridge
`posix2fsal_error` (fsal_convert.h, external collaborator). -/
structure UpEnv where
  up_ops : fsal_export → fsal_up_vector
  delegrecall_impl : Nat → state_status_t
  posix2fsal_error : Int → Nat

/-- Caller-side memory at submission time: raw bytes, plus typed stores for
each struct the wrappers dereference by pointer. -/
structure CallerMem where
  bytes : Nat → Nat
  attrs : Nat → attrlist
  lock_params : Nat → fsal_lock_param_t
  segments : Nat → pnfs_segment
  devids : Nat → pnfs_deviceid
  specs : Nat → layoutrecall_spec

/-- Read `len` bytes of caller memory starting at `addr`: the source side of
`memcpy(args->key, obj->addr, obj->len)`. -/
def readBytes (mem : Nat → Nat) (addr len : Nat) : List Nat :=
  (List.range len).map fun i => mem (addr + i)

/-- The pool collaborator, modelled from the spec (fridgethr is not in src/):
a submission attempt is characterised by the return code the pool gives it
(`0` = accepted, nonzero = rejection code). -/
structure fridgethr where
  rc : Int
deriving DecidableEq, Repr

/-- Modelled from the spec: `fridgethr_submit` returns the pool's result code
for this submission; `0` means the task was accepted and the worker entry
point will run exactly once on it. -/
def fridgethr_submit (fr : fridgethr) : Int :=
  fr.rc

/-- Observable events of the subsystem, in the order they occur.  Each
`op*` event records exactly the arguments the worker passes to the
capability-table slot (or to `delegrecall_impl`). -/
inductive Event where
  | alloc (trailing : Nat)
  | free
  | opInvalidate (e : fsal_export) (obj : List Nat) (flags : Nat)
  | opUpdate (e : fsal_export) (obj : List Nat) (attr : attrlist) (flags : Nat)
  | opLockGrant (e : fsal_export) (file : List Nat) (owner : Nat)
      (lock_param : fsal_lock_param_t)
  | opLockAvail (e : fsal_export) (file : List Nat) (owner : Nat)
      (lock_param : fsal_lock_param_t)
  | opLayoutrecall (e : fsal_export) (handle : List Nat) (layout_type : layouttype4)
      (changed : Bool) (segment : pnfs_segment) (cookie : Nat)
      (spec : Option layoutrecall_spec)
  | opNotifyDevice (notify_type : notify_deviceid_type4) (layout_type : layouttype4)
      (devid : pnfs_deviceid) (immediate : Bool)
  | opDelegrecall (e : fsal_export) (handle : List Nat)
  | opDelegrecallImpl (obj : Nat)
  | cbFsal (cb : Nat) (arg : Nat) (st : fsal_status_t)
  | cbState (cb : Nat) (arg : Nat) (st : state_status_t)
deriving DecidableEq, Repr

/-- The export argument recorded in a capability-table call event, when the
call passed one (`none` for slots invoked without an export argument, and
for non-call events). -/
def eventExportArg : Event → Option fsal_export
  | .opInvalidate e _ _ => some e
  | .opUpdate e _ _ _ => some e
  | .opLockGrant e _ _ _ => some e
  | .opLockAvail e _ _ _ => some e
  | .opLayoutrecall e _ _ _ _ _ _ => some e
  | .opDelegrecall e _ => some e
  | _ => none

/-- The key/handle byte sequence recorded in a capability-table call event,
when the call passed one. -/
def eventKey : Event → Option (List Nat)
  | .opInvalidate _ o _ => some o
  | .opUpdate _ o _ _ => some o
  | .opLockGrant _ f _ _ => some f
  | .opLockAvail _ f _ _ => some f
  | .opLayoutrecall _ h _ _ _ _ _ => some h
  | .opDelegrecall _ h => some h
  | _ => none

/-- The key/handle bytes the operation entry point observes in a worker
trace: the key argument of the trace's first event. -/
def observedKey (tr : List Event) : Option (List Nat) :=
  tr.head?.bind eventKey

/-- Synchronous outcome of an `up_async_*` call: the returned status, the
task handed to the pool (`some` exactly when the pool accepted; ownership
then transfers to the pool, which runs the worker entry point on it exactly
once), and the events performed before returning (the allocation, and the
free on the rejection path). -/
structure AsyncResult (τ : Type) where
  status : fsal_status_t
  handedToPool : Option τ
  syncEvents : List Event
deriving Repr

/- ===================== Invalidate ===================== -/

/-- `struct invalidate_args`.  The `obj` buffdesc pointing at the inline
`key[]` copy is represented by the copied byte list itself. -/
structure invalidate_args where
  export_ : fsal_export
  obj : List Nat
  flags : Nat
  cb : Option Nat
  cb_arg : Nat
deriving DecidableEq, Repr

/-- Worker entry point `queue_invalidate`: call the export's `invalidate`
slot, then the callback if non-null with the returned status, then free. -/
def queue_invalidate (env : UpEnv) (args : invalidate_args) : List Event :=
  let status := (env.up_ops args.export_).invalidate args.export_ args.obj args.flags
  [Event.opInvalidate args.export_ args.obj args.flags] ++
    (match args.cb with
      | some cb => [Event.cbFsal cb args.cb_arg status]
      | none => []) ++
    [Event.free]

/-- `up_async_invalidate`: package (one allocation of base size plus
`obj->len`, key bytes copied inline), submit, free on rejection, and return
the bridged submission code. -/
def up_async_invalidate (fr : fridgethr) (env : UpEnv) (m : CallerMem)
    (export_ : fsal_export) (obj : gsh_buffdesc) (flags : Nat)
    (cb : Option Nat) (cb_arg : Nat) : AsyncResult invalidate_args :=
  let args : invalidate_args :=
    { export_ := export_, flags := flags, cb := cb, cb_arg := cb_arg,
      obj := readBytes m.bytes obj.addr obj.len }
  let rc := fridgethr_submit fr
  { status := fsalstat (env.posix2fsal_error rc) rc,
    handedToPool := if rc = 0 then some args else none,
    syncEvents := Event.alloc obj.len :: (if rc = 0 then [] else [Event.free]) }

/- ===================== Update ===================== -/

/-- `struct update_args`. -/
structure update_args where
  export_ : fsal_export
  obj : List Nat
  attr : attrlist
  flags : Nat
  cb : Option Nat
  cb_arg : Nat
deriving DecidableEq, Repr

/-- Worker entry point `queue_update`. -/
def queue_update (env : UpEnv) (args : update_args) : List Event :=
  let status := (env.up_ops args.export_).update args.export_ args.obj
    args.attr args.flags
  [Event.opUpdate args.export_ args.obj args.attr args.flags] ++
    (match args.cb with
      | some cb => [Event.cbFsal cb args.cb_arg status]
      | none => []) ++
    [Event.free]

/-- `up_async_update`: packages `*attr` by value (read from the caller's
store at packaging time) together with the copied key bytes. -/
def up_async_update (fr : fridgethr) (env : UpEnv) (m : CallerMem)
    (export_ : fsal_export) (obj : gsh_buffdesc) (attr : Nat) (flags : Nat)
    (cb : Option Nat) (cb_arg : Nat) : AsyncResult update_args :=
  let args : update_args :=
    { export_ := export_, attr := m.attrs attr, flags := flags, cb := cb,
      cb_arg := cb_arg, obj := readBytes m.bytes obj.addr obj.len }
  let rc := fridgethr_submit fr
  { status := fsalstat (env.posix2fsal_error rc) rc,
    handedToPool := if rc = 0 then some args else none,
    syncEvents := Event.alloc obj.len :: (if rc = 0 then [] else [Event.free]) }

/- ===================== Lock grant ===================== -/

/-- `struct lock_grant_args`.  `owner` is captured as a raw pointer value. -/
structure lock_grant_args where
  export_ : fsal_export
  file : List Nat
  owner : Nat
  lock_param : fsal_lock_param_t
  cb : Option Nat
  cb_arg : Nat
deriving DecidableEq, Repr

/-- Worker entry point `queue_lock_grant`. -/
def queue_lock_grant (env : UpEnv) (args : lock_grant_args) : List Event :=
  let status := (env.up_ops args.export_).lock_grant args.export_ args.file
    args.owner args.lock_param
  [Event.opLockGrant args.export_ args.file args.owner args.lock_param] ++
    (match args.cb with
      | some cb => [Event.cbState cb args.cb_arg status]
      | none => []) ++
    [Event.free]

/-- `up_async_lock_grant`: packages the owner pointer value and `*lock_param`
by value, with the copied file-key bytes. -/
def up_async_lock_grant (fr : fridgethr) (env : UpEnv) (m : CallerMem)
    (export_ : fsal_export) (file : gsh_buffdesc) (owner : Nat)
    (lock_param : Nat) (cb : Option Nat) (cb_arg : Nat) :
    AsyncResult lock_grant_args :=
  let args : lock_grant_args :=
    { export_ := export_, owner := owner,
      lock_param := m.lock_params lock_param, cb := cb, cb_arg := cb_arg,
      file := readBytes m.bytes file.addr file.len }
  let rc := fridgethr_submit fr
  { status := fsalstat (env.posix2fsal_error rc) rc,
    handedToPool := if rc = 0 then some args else none,
    syncEvents := Event.alloc file.len :: (if rc = 0 then [] else [Event.free]) }

/- ===================== Lock avail ===================== -/

/-- `struct lock_avail_args`. -/
structure lock_avail_args where
  export_ : fsal_export
  file : List Nat
  owner : Nat
  lock_param : fsal_lock_param_t
  cb : Option Nat
  cb_arg : Nat
deriving DecidableEq, Repr

/-- Worker entry point `queue_lock_avail`. -/
def queue_lock_avail (env : UpEnv) (args : lock_avail_args) : List Event :=
  let status := (env.up_ops args.export_).lock_avail args.export_ args.file
    args.owner args.lock_param
  [Event.opLockAvail args.export_ args.file args.owner args.lock_param] ++
    (match args.cb with
      | some cb => [Event.cbState cb args.cb_arg status]
      | none => []) ++
    [Event.free]

/-- `up_async_lock_avail`. -/
def up_async_lock_avail (fr : fridgethr) (env : UpEnv) (m : CallerMem)
    (export_ : fsal_export) (file : gsh_buffdesc) (owner : Nat)
    (lock_param : Nat) (cb : Option Nat) (cb_arg : Nat) :
    AsyncResult lock_avail_args :=
  let args : lock_avail_args :=
    { export_ := export_, owner := owner,
      lock_param := m.lock_params lock_param, cb := cb, cb_arg := cb_arg,
      file := readBytes m.bytes file.addr file.len }
  let rc := fridgethr_submit fr
  { status := fsalstat (env.posix2fsal_error rc) rc,
    handedToPool := if rc = 0 then some args else none,
    syncEvents := Event.alloc file.len :: (if rc = 0 then [] else [Event.free]) }

/- ===================== Layoutrecall ===================== -/

/-- `struct layoutrecall_args`.  `cookie` is captured as a raw pointer value;
`spec` is stored by value (the union payload is left as written: when the
caller passed no spec only the `how` tag is assigned, modelled with payload
`0`, which the worker never exposes in that case). -/
structure layoutrecall_args where
  export_ : fsal_export
  handle : List Nat
  layout_type : layouttype4
  changed : Bool
  segment : pnfs_segment
  cookie : Nat
  spec : layoutrecall_spec
  cb : Option Nat
  cb_arg : Nat
deriving DecidableEq, Repr

/-- Worker entry point `queue_layoutrecall`: passes NULL for the spec exactly
when the stored tag is the `layoutrecall_not_specced` sentinel. -/
def queue_layoutrecall (env : UpEnv) (args : layoutrecall_args) : List Event :=
  let specArg : Option layoutrecall_spec :=
    if args.spec.how = layoutrecall_howspec.layoutrecall_not_specced then none
    else some args.spec
  let status := (env.up_ops args.export_).layoutrecall args.export_ args.handle
    args.layout_type args.changed args.segment args.cookie specArg
  [Event.opLayoutrecall args.export_ args.handle args.layout_type args.changed
      args.segment args.cookie specArg] ++
    (match args.cb with
      | some cb => [Event.cbState cb args.cb_arg status]
      | none => []) ++
    [Event.free]

/-- `up_async_layoutrecall`: packages `*segment` and (when non-NULL) `*spec`
by value; a NULL spec is recorded by setting the sentinel tag. -/
def up_async_layoutrecall (fr : fridgethr) (env : UpEnv) (m : CallerMem)
    (export_ : fsal_export) (handle : gsh_buffdesc) (layout_type : layouttype4)
    (changed : Bool) (segment : Nat) (cookie : Nat) (spec : Option Nat)
    (cb : Option Nat) (cb_arg : Nat) : AsyncResult layoutrecall_args :=
  let args : layoutrecall_args :=
    { export_ := export_, cb := cb, cb_arg := cb_arg,
      handle := readBytes m.bytes handle.addr handle.len,
      layout_type := layout_type, changed := changed,
      segment := m.segments segment, cookie := cookie,
      spec := match spec with
        | some p => m.specs p
        | none =>
          { how := layoutrecall_howspec.layoutrecall_not_specced, u := 0 } }
  let rc := fridgethr_submit fr
  { status := fsalstat (env.posix2fsal_error rc) rc,
    handedToPool := if rc = 0 then some args else none,
    syncEvents :=
      Event.alloc handle.len :: (if rc = 0 then [] else [Event.free]) }

/- ===================== Notify device ===================== -/

/-- `struct notify_device_args`: no key, all arguments fixed-size. -/
structure notify_device_args where
  export_ : fsal_export
  notify_type : notify_deviceid_type4
  layout_type : layouttype4
  devid : pnfs_deviceid
  immediate : Bool
  cb : Option Nat
  cb_arg : Nat
deriving DecidableEq, Repr

/-- Worker entry point `queue_notify_device`: the slot is reached through the
task's export, but the call passes only the four fixed arguments — no export
and no key. -/
def queue_notify_device (env : UpEnv) (args : notify_device_args) : List Event :=
  let status := (env.up_ops args.export_).notify_device args.notify_type
    args.layout_type args.devid args.immediate
  [Event.opNotifyDevice args.notify_type args.layout_type args.devid
      args.immediate] ++
    (match args.cb with
      | some cb => [Event.cbState cb args.cb_arg status]
      | none => []) ++
    [Event.free]

/-- `up_async_notify_device`: allocation of base size only (no trailing
buffer); `*devid` copied by value. -/
def up_async_notify_device (fr : fridgethr) (env : UpEnv) (m : CallerMem)
    (export_ : fsal_export) (notify_type : notify_deviceid_type4)
    (layout_type : layouttype4) (devid : Nat) (immediate : Bool)
    (cb : Option Nat) (cb_arg : Nat) : AsyncResult notify_device_args :=
  let args : notify_device_args :=
    { export_ := export_, cb := cb, cb_arg := cb_arg,
      notify_type := notify_type, layout_type := layout_type,
      devid := m.devids devid, immediate := immediate }
  let rc := fridgethr_submit fr
  { status := fsalstat (env.posix2fsal_error rc) rc,
    handedToPool := if rc = 0 then some args else none,
    syncEvents := Event.alloc 0 :: (if rc = 0 then [] else [Event.free]) }

/- ===================== Delegrecall ===================== -/

/-- `struct delegrecall_args` (the packaged path `up_async_delegrecall`). -/
structure delegrecall_args where
  export_ : fsal_export
  handle : List Nat
  cb : Option Nat
  cb_arg : Nat
deriving DecidableEq, Repr

/-- Worker entry point `queue_delegrecall` of the direct path: call
`delegrecall_impl` on the caller's object reference, discarding its status;
no callback, no free. -/
def queue_delegrecall (env : UpEnv) (obj : Nat) : List Event :=
  let _status := env.delegrecall_impl obj
  [Event.opDelegrecallImpl obj]

/-- Outcome of `async_delegrecall`: the raw integer return, the object
reference handed to the pool (`some` exactly when accepted), and the
synchronous events (none: this path allocates and frees nothing). -/
structure RawResult where
  rc : Int
  handedToPool : Option Nat
  syncEvents : List Event
deriving DecidableEq, Repr

/-- `async_delegrecall`: submit the caller's object reference itself; return
the pool's result code unconverted. -/
def async_delegrecall (fr : fridgethr) (obj : Nat) : RawResult :=
  let rc := fridgethr_submit fr
  { rc := rc,
    handedToPool := if rc = 0 then some obj else none,
    syncEvents := [] }

/-- Worker entry point `up_queue_delegrecall` (the packaged path). -/
def up_queue_delegrecall (env : UpEnv) (args : delegrecall_args) : List Event :=
  let status := (env.up_ops args.export_).delegrecall args.export_ args.handle
  [Event.opDelegrecall args.export_ args.handle] ++
    (match args.cb with
      | some cb => [Event.cbState cb args.cb_arg status]
      | none => []) ++
    [Event.free]

/-- `up_async_delegrecall`: the packaged delegation-recall path. -/
def up_async_delegrecall (fr : fridgethr) (env : UpEnv) (m : CallerMem)
    (export_ : fsal_export) (handle : gsh_buffdesc)
    (cb : Option Nat) (cb_arg : Nat) : AsyncResult delegrecall_args :=
  let args : delegrecall_args :=
    { export_ := export_, cb := cb, cb_arg := cb_arg,
      handle := readBytes m.bytes handle.addr handle.len }
  let rc := fridgethr_submit fr
  { status := fsalstat (env.posix2fsal_error rc) rc,
    handedToPool := if rc = 0 then some args else none,
    syncEvents :=
      Event.alloc handle.len :: (if rc = 0 then [] else [Event.free]) }

/- ===================== Helper lemmas and fixtures ===================== -/

/-- Packaging reads caller memory only inside the key's byte range: two
memories agreeing there yield the same copied key. -/
theorem readBytes_congr {f g : Nat → Nat} {addr len : Nat}
    (h : ∀ i, i < len → f (addr + i) = g (addr + i)) :
    readBytes f addr len = readBytes g addr len := by
  unfold readBytes
  apply List.map_congr_left
  intro i hi
  exact h i (List.mem_range.mp hi)

/-- A concrete capability table used to instantiate theorems. -/
def vec0 : fsal_up_vector :=
  { invalidate := fun e o f => fsalstat (e.ref + o.length) (Int.ofNat f),
    update := fun e o a f => fsalstat (e.ref + a.val) (Int.ofNat (f + o.length)),
    lock_grant := fun e f o lp => e.ref + f.length + o + lp.val,
    lock_avail := fun e f o lp => e.ref + f.length + o + lp.val + 1,
    layoutrecall := fun e h lt c seg ck sp =>
      e.ref + h.length + lt + (if c then 1 else 0) + seg.val + ck +
        (match sp with | some s => s.u + 10 | none => 5),
    notify_device := fun nt lt d i => nt + lt + d.val + (if i then 1 else 0),
    delegrecall := fun e h => e.ref + h.length }

/-- A concrete environment used to instantiate theorems. -/
def env0 : UpEnv :=
  { up_ops := fun _ => vec0,
    delegrecall_impl := fun o => o + 3,
    posix2fsal_error := fun c => if c = 0 then 0 else 1 }

/-- A concrete caller memory used to instantiate theorems. -/
def m0 : CallerMem :=
  { bytes := fun a => a % 256,
    attrs := fun p => { val := p + 1 },
    lock_params := fun p => { val := p + 2 },
    segments := fun p => { val := p + 3 },
    devids := fun p => { val := p + 4 },
    specs := fun p =>
      if p = 0 then
        { how := layoutrecall_howspec.layoutrecall_not_specced, u := 5 }
      else
        { how := layoutrecall_howspec.layoutrecall_howspec_exists, u := p } }

/-- A caller memory agreeing with `m0` only on the byte range `[10, 26)`:
models arbitrary mutation of caller memory outside a submitted key. -/
def m1 : CallerMem :=
  { m0 with bytes := fun a => if 10 ≤ a ∧ a < 26 then a % 256 else 0 }

/- ===================== C1 ===================== -/

/-- The C1 property at given inputs: each accepted submission's worker run
performs exactly `[operation call] ++ [callback, iff non-null] ++ [free]`,
for all seven operation kinds. -/
def c1_statement (fr : fridgethr) (env : UpEnv) (m : CallerMem)
    (e : fsal_export) (obj : gsh_buffdesc) (flags : Nat) (attr : Nat)
    (owner : Nat) (lockp : Nat) (lt : layouttype4) (ch : Bool) (seg : Nat)
    (cookie : Nat) (specp : Option Nat) (nt : notify_deviceid_type4)
    (devid : Nat) (imm : Bool) (cb : Option Nat) (cb_arg : Nat) : Prop :=
    ((up_async_invalidate fr env m e obj flags cb cb_arg).handedToPool.map
        (queue_invalidate env) =
      some ([Event.opInvalidate e (readBytes m.bytes obj.addr obj.len) flags] ++
        (match cb with
          | some c => [Event.cbFsal c cb_arg ((env.up_ops e).invalidate e
              (readBytes m.bytes obj.addr obj.len) flags)]
          | none => []) ++ [Event.free])) ∧
    ((up_async_update fr env m e obj attr flags cb cb_arg).handedToPool.map
        (queue_update env) =
      some ([Event.opUpdate e (readBytes m.bytes obj.addr obj.len)
          (m.attrs attr) flags] ++
        (match cb with
          | some c => [Event.cbFsal c cb_arg ((env.up_ops e).update e
              (readBytes m.bytes obj.addr obj.len) (m.attrs attr) flags)]
          | none => []) ++ [Event.free])) ∧
    ((up_async_lock_grant fr env m e obj owner lockp cb cb_arg).handedToPool.map
        (queue_lock_grant env) =
      some ([Event.opLockGrant e (readBytes m.bytes obj.addr obj.len) owner
          (m.lock_params lockp)] ++
        (match cb with
          | some c => [Event.cbState c cb_arg ((env.up_ops e).lock_grant e
              (readBytes m.bytes obj.addr obj.len) owner (m.lock_params lockp))]
          | none => []) ++ [Event.free])) ∧
    ((up_async_lock_avail fr env m e obj owner lockp cb cb_arg).handedToPool.map
        (queue_lock_avail env) =
      some ([Event.opLockAvail e (readBytes m.bytes obj.addr obj.len) owner
          (m.lock_params lockp)] ++
        (match cb with
          | some c => [Event.cbState c cb_arg ((env.up_ops e).lock_avail e
              (readBytes m.bytes obj.addr obj.len) owner (m.lock_params lockp))]
          | none => []) ++ [Event.free])) ∧
    ((up_async_layoutrecall fr env m e obj lt ch seg cookie specp cb
          cb_arg).handedToPool.map (queue_layoutrecall env) =
      some
        (let storedSpec : layoutrecall_spec := match specp with
          | some p => m.specs p
          | none =>
            { how := layoutrecall_howspec.layoutrecall_not_specced, u := 0 }
        let specArg : Option layoutrecall_spec :=
          if storedSpec.how = layoutrecall_howspec.layoutrecall_not_specced
          then none else some storedSpec
        [Event.opLayoutrecall e (readBytes m.bytes obj.addr obj.len) lt ch
            (m.segments seg) cookie specArg] ++
          (match cb with
            | some c => [Event.cbState c cb_arg ((env.up_ops e).layoutrecall e
                (readBytes m.bytes obj.addr obj.len) lt ch (m.segments seg)
                cookie specArg)]
            | none => []) ++ [Event.free])) ∧
    ((up_async_notify_device fr env m e nt lt devid imm cb
          cb_arg).handedToPool.map (queue_notify_device env) =
      some ([Event.opNotifyDevice nt lt (m.devids devid) imm] ++
        (match cb with
          | some c => [Event.cbState c cb_arg ((env.up_ops e).notify_device nt
              lt (m.devids devid) imm)]
          | none => []) ++ [Event.free])) ∧
    ((up_async_delegrecall fr env m e obj cb cb_arg).handedToPool.map
        (up_queue_delegrecall env) =
      some ([Event.opDelegrecall e (readBytes m.bytes obj.addr obj.len)] ++
        (match cb with
          | some c => [Event.cbState c cb_arg ((env.up_ops e).delegrecall e
              (readBytes m.bytes obj.addr obj.len))]
          | none => []) ++ [Event.free]))

/-- Claim C1: for every operation kind and every key length, if the pool
accepts the submission, the one worker-entry-point run on the handed task
invokes the operation-specific up_ops entry point exactly once, then (iff
the stored callback is non-null) invokes the callback exactly once with the
status the operation returned, then frees the task: the worker trace is
exactly `[operation call] ++ [callback?] ++ [free]`, with the free last and
unconditional.  (That the worker entry point runs exactly once on the handed
task is the pool collaborator's guarantee, modelled by `handedToPool`.) -/
theorem c1_worker_runs_op_cb_free_in_order
    (fr : fridgethr) (env : UpEnv) (m : CallerMem) (e : fsal_export)
    (obj : gsh_buffdesc) (flags : Nat) (attr : Nat) (owner : Nat)
    (lockp : Nat) (lt : layouttype4) (ch : Bool) (seg : Nat) (cookie : Nat)
    (specp : Option Nat) (nt : notify_deviceid_type4) (devid : Nat)
    (imm : Bool) (cb : Option Nat) (cb_arg : Nat)
    (h : fr.rc = 0) :
    c1_statement fr env m e obj flags attr owner lockp lt ch seg cookie specp
      nt devid imm cb cb_arg := by
  unfold c1_statement
  refine ⟨?_, ?_, ?_, ?_, ?_, ?_, ?_⟩ <;>
    cases cb <;>
      simp [up_async_invalidate, queue_invalidate, up_async_update,
        queue_update, up_async_lock_grant, queue_lock_grant,
        up_async_lock_avail, queue_lock_avail, up_async_layoutrecall,
        queue_layoutrecall, up_async_notify_device, queue_notify_device,
        up_async_delegrecall, up_queue_delegrecall, fridgethr_submit, h]

/-- Witness for C1 at concrete inputs (pool accepts, 16-byte key,
callback present). -/
theorem c1_worker_runs_op_cb_free_in_order_witness :
    c1_statement { rc := 0 } env0 m0 { ref := 1 } { addr := 10, len := 16 }
      1 2 3 4 5 true 6 7 (some 1) 8 9 true (some 11) 12 :=
  c1_worker_runs_op_cb_free_in_order { rc := 0 } env0 m0 { ref := 1 }
    { addr := 10, len := 16 } 1 2 3 4 5 true 6 7 (some 1) 8 9 true (some 11)
    12 rfl

/- ===================== C2 ===================== -/

/-- The C2 property at given inputs: a rejected submission hands nothing to
the pool (so no worker and no callback run), frees the allocation before the
call returns, and yields the bridged rejection status; acceptance and
rejection are characterised by the pool's code, for all seven entry points. -/
def c2_statement (fr : fridgethr) (env : UpEnv) (m : CallerMem)
    (e : fsal_export) (obj : gsh_buffdesc) (flags : Nat) (attr : Nat)
    (owner : Nat) (lockp : Nat) (lt : layouttype4) (ch : Bool) (seg : Nat)
    (cookie : Nat) (specp : Option Nat) (nt : notify_deviceid_type4)
    (devid : Nat) (imm : Bool) (cb : Option Nat) (cb_arg : Nat) : Prop :=
    ((up_async_invalidate fr env m e obj flags cb cb_arg).handedToPool = none ∧
      (up_async_invalidate fr env m e obj flags cb cb_arg).syncEvents =
        [Event.alloc obj.len, Event.free] ∧
      (up_async_invalidate fr env m e obj flags cb cb_arg).status =
        fsalstat (env.posix2fsal_error fr.rc) fr.rc) ∧
    ((up_async_update fr env m e obj attr flags cb cb_arg).handedToPool = none ∧
      (up_async_update fr env m e obj attr flags cb cb_arg).syncEvents =
        [Event.alloc obj.len, Event.free] ∧
      (up_async_update fr env m e obj attr flags cb cb_arg).status =
        fsalstat (env.posix2fsal_error fr.rc) fr.rc) ∧
    ((up_async_lock_grant fr env m e obj owner lockp cb cb_arg).handedToPool =
        none ∧
      (up_async_lock_grant fr env m e obj owner lockp cb cb_arg).syncEvents =
        [Event.alloc obj.len, Event.free] ∧
      (up_async_lock_grant fr env m e obj owner lockp cb cb_arg).status =
        fsalstat (env.posix2fsal_error fr.rc) fr.rc) ∧
    ((up_async_lock_avail fr env m e obj owner lockp cb cb_arg).handedToPool =
        none ∧
      (up_async_lock_avail fr env m e obj owner lockp cb cb_arg).syncEvents =
        [Event.alloc obj.len, Event.free] ∧
      (up_async_lock_avail fr env m e obj owner lockp cb cb_arg).status =
        fsalstat (env.posix2fsal_error fr.rc) fr.rc) ∧
    ((up_async_layoutrecall fr env m e obj lt ch seg cookie specp cb
          cb_arg).handedToPool = none ∧
      (up_async_layoutrecall fr env m e obj lt ch seg cookie specp cb
          cb_arg).syncEvents = [Event.alloc obj.len, Event.free] ∧
      (up_async_layoutrecall fr env m e obj lt ch seg cookie specp cb
          cb_arg).status = fsalstat (env.posix2fsal_error fr.rc) fr.rc) ∧
    ((up_async_notify_device fr env m e nt lt devid imm cb
          cb_arg).handedToPool = none ∧
      (up_async_notify_device fr env m e nt lt devid imm cb
          cb_arg).syncEvents = [Event.alloc 0, Event.free] ∧
      (up_async_notify_device fr env m e nt lt devid imm cb cb_arg).status =
        fsalstat (env.posix2fsal_error fr.rc) fr.rc) ∧
    ((up_async_delegrecall fr env m e obj cb cb_arg).handedToPool = none ∧
      (up_async_delegrecall fr env m e obj cb cb_arg).syncEvents =
        [Event.alloc obj.len, Event.free] ∧
      (up_async_delegrecall fr env m e obj cb cb_arg).status =
        fsalstat (env.posix2fsal_error fr.rc) fr.rc)

/-- Claim C2: for every operation kind, if `fridgethr_submit` returns a
nonzero code, the worker entry point is never invoked (nothing is handed to
the pool), hence the callback is never invoked; the task allocation is freed
before the `up_async_*` function returns; and the caller receives the
synchronous bridged rejection status.  Together with C1's acceptance case,
rejection and successful handoff are mutually exclusive and jointly
exhaustive. -/
theorem c2_rejection_no_worker_free_before_return
    (fr : fridgethr) (env : UpEnv) (m : CallerMem) (e : fsal_export)
    (obj : gsh_buffdesc) (flags : Nat) (attr : Nat) (owner : Nat)
    (lockp : Nat) (lt : layouttype4) (ch : Bool) (seg : Nat) (cookie : Nat)
    (specp : Option Nat) (nt : notify_deviceid_type4) (devid : Nat)
    (imm : Bool) (cb : Option Nat) (cb_arg : Nat)
    (h : fr.rc ≠ 0) :
    c2_statement fr env m e obj flags attr owner lockp lt ch seg cookie specp
      nt devid imm cb cb_arg := by
  unfold c2_statement
  refine ⟨⟨?_, ?_, ?_⟩, ⟨?_, ?_, ?_⟩, ⟨?_, ?_, ?_⟩, ⟨?_, ?_, ?_⟩,
    ⟨?_, ?_, ?_⟩, ⟨?_, ?_, ?_⟩, ⟨?_, ?_, ?_⟩⟩ <;>
    simp [up_async_invalidate, up_async_update, up_async_lock_grant,
      up_async_lock_avail, up_async_layoutrecall, up_async_notify_device,
      up_async_delegrecall, fridgethr_submit, h]

/-- Witness for C2 at concrete inputs (pool rejects with code 22). -/
theorem c2_rejection_no_worker_free_before_return_witness :
    c2_statement { rc := 22 } env0 m0 { ref := 1 } { addr := 10, len := 16 }
      1 2 3 4 5 true 6 7 (some 1) 8 9 true (some 11) 12 :=
  c2_rejection_no_worker_free_before_return { rc := 22 } env0 m0 { ref := 1 }
    { addr := 10, len := 16 } 1 2 3 4 5 true 6 7 (some 1) 8 9 true (some 11)
    12 (by decide)

/- ===================== C3 ===================== -/

/-- The C3 property at given inputs: for every keyed operation kind the byte
sequence the worker hands to the operation entry point equals the key bytes
read from the caller's memory at submission time; and the observation is
unchanged under any replacement memory that agrees on the key's byte range
(the task references its own inline copy, never caller memory). -/
def c3_statement (fr : fridgethr) (env : UpEnv) (m m' : CallerMem)
    (e : fsal_export) (obj : gsh_buffdesc) (flags : Nat) (attr : Nat)
    (owner : Nat) (lockp : Nat) (lt : layouttype4) (ch : Bool) (seg : Nat)
    (cookie : Nat) (specp : Option Nat) (cb : Option Nat) (cb_arg : Nat) :
    Prop :=
    ((up_async_invalidate fr env m e obj flags cb cb_arg).handedToPool.map
        (fun t => observedKey (queue_invalidate env t)) =
      some (some (readBytes m.bytes obj.addr obj.len))) ∧
    ((up_async_update fr env m e obj attr flags cb cb_arg).handedToPool.map
        (fun t => observedKey (queue_update env t)) =
      some (some (readBytes m.bytes obj.addr obj.len))) ∧
    ((up_async_lock_grant fr env m e obj owner lockp cb cb_arg).handedToPool.map
        (fun t => observedKey (queue_lock_grant env t)) =
      some (some (readBytes m.bytes obj.addr obj.len))) ∧
    ((up_async_lock_avail fr env m e obj owner lockp cb cb_arg).handedToPool.map
        (fun t => observedKey (queue_lock_avail env t)) =
      some (some (readBytes m.bytes obj.addr obj.len))) ∧
    ((up_async_layoutrecall fr env m e obj lt ch seg cookie specp cb
          cb_arg).handedToPool.map
        (fun t => observedKey (queue_layoutrecall env t)) =
      some (some (readBytes m.bytes obj.addr obj.len))) ∧
    ((up_async_delegrecall fr env m e obj cb cb_arg).handedToPool.map
        (fun t => observedKey (up_queue_delegrecall env t)) =
      some (some (readBytes m.bytes obj.addr obj.len))) ∧
    ((up_async_invalidate fr env m' e obj flags cb cb_arg).handedToPool.map
        (fun t => observedKey (queue_invalidate env t)) =
      (up_async_invalidate fr env m e obj flags cb cb_arg).handedToPool.map
        (fun t => observedKey (queue_invalidate env t))) ∧
    ((up_async_update fr env m' e obj attr flags cb cb_arg).handedToPool.map
        (fun t => observedKey (queue_update env t)) =
      (up_async_update fr env m e obj attr flags cb cb_arg).handedToPool.map
        (fun t => observedKey (queue_update env t))) ∧
    ((up_async_lock_grant fr env m' e obj owner lockp cb
          cb_arg).handedToPool.map
        (fun t => observedKey (queue_lock_grant env t)) =
      (up_async_lock_grant fr env m e obj owner lockp cb
          cb_arg).handedToPool.map
        (fun t => observedKey (queue_lock_grant env t))) ∧
    ((up_async_lock_avail fr env m' e obj owner lockp cb
          cb_arg).handedToPool.map
        (fun t => observedKey (queue_lock_avail env t)) =
      (up_async_lock_avail fr env m e obj owner lockp cb
          cb_arg).handedToPool.map
        (fun t => observedKey (queue_lock_avail env t))) ∧
    ((up_async_layoutrecall fr env m' e obj lt ch seg cookie specp cb
          cb_arg).handedToPool.map
        (fun t => observedKey (queue_layoutrecall env t)) =
      (up_async_layoutrecall fr env m e obj lt ch seg cookie specp cb
          cb_arg).handedToPool.map
        (fun t => observedKey (queue_layoutrecall env t))) ∧
    ((up_async_delegrecall fr env m' e obj cb cb_arg).handedToPool.map
        (fun t => observedKey (up_queue_delegrecall env t)) =
      (up_async_delegrecall fr env m e obj cb cb_arg).handedToPool.map
        (fun t => observedKey (up_queue_delegrecall env t)))

/-- Claim C3: round-trip of the key/handle.  For every operation kind that
carries a key, and every key length (including 0), the bytes the worker
passes to the operation entry point equal byte-for-byte the key bytes read
from the caller's memory at submission time; and the observed key is
independent of the caller's memory outside the submitted byte range, because
packaging copies the bytes into the task's own trailing buffer and the
worker's descriptor points into that copy. -/
theorem c3_key_round_trip
    (fr : fridgethr) (env : UpEnv) (m m' : CallerMem) (e : fsal_export)
    (obj : gsh_buffdesc) (flags : Nat) (attr : Nat) (owner : Nat)
    (lockp : Nat) (lt : layouttype4) (ch : Bool) (seg : Nat) (cookie : Nat)
    (specp : Option Nat) (cb : Option Nat) (cb_arg : Nat)
    (h : fr.rc = 0)
    (hagree : ∀ i, i < obj.len → m'.bytes (obj.addr + i) = m.bytes (obj.addr + i)) :
    c3_statement fr env m m' e obj flags attr owner lockp lt ch seg cookie
      specp cb cb_arg := by
  unfold c3_statement
  refine ⟨?_, ?_, ?_, ?_, ?_, ?_, ?_, ?_, ?_, ?_, ?_, ?_⟩ <;>
    simp [up_async_invalidate, queue_invalidate, up_async_update,
      queue_update, up_async_lock_grant, queue_lock_grant,
      up_async_lock_avail, queue_lock_avail, up_async_layoutrecall,
      queue_layoutrecall, up_async_delegrecall, queue_delegrecall,
      up_queue_delegrecall, fridgethr_submit, observedKey, eventKey, h,
      readBytes_congr hagree]

/-- Witness for C3: pool accepts, key of length 16 at address 10; the
replacement memory `m1` differs from `m0` everywhere outside `[10, 26)`. -/
theorem c3_key_round_trip_witness :
    c3_statement { rc := 0 } env0 m0 m1 { ref := 1 } { addr := 10, len := 16 }
      1 2 3 4 5 true 6 7 (some 1) (some 11) 12 :=
  c3_key_round_trip { rc := 0 } env0 m0 m1 { ref := 1 }
    { addr := 10, len := 16 } 1 2 3 4 5 true 6 7 (some 1) (some 11) 12
    rfl (by decide)

/- ===================== C4 ===================== -/

/-- A concrete notify-device task used as counterexample input. -/
def nd0 : notify_device_args :=
  { export_ := { ref := 1 }, notify_type := 7, layout_type := 8,
    devid := { val := 9 }, immediate := true, cb := none, cb_arg := 0 }

/-- Counterexample to C4 as stated: the worker entry point for notify_device
invokes the capability-table slot with only the four fixed arguments — the
trace of a concrete notify-device task contains no event carrying an export
argument, so the slot is not "passed the export itself" (nor any
key/handle). -/
theorem c4_counterexample_notify_device_passes_no_export :
    queue_notify_device env0 nd0 =
      [Event.opNotifyDevice 7 8 { val := 9 } true, Event.free] ∧
    (queue_notify_device env0 nd0).all
      (fun ev => (eventExportArg ev).isNone) = true := by
  decide

/-- The amended C4 property: for six of the seven operation kinds the worker
invokes the slot reached through the task's export passing the export itself,
the key/handle, and the operation-specific arguments; for notify_device the
slot is still reached through the task's export (the callback status comes
from that export's table) but the call passes only the four fixed arguments,
with no export and no key. -/
def c4_statement (env : UpEnv) (ia : invalidate_args) (ua : update_args)
    (la : lock_grant_args) (lva : lock_avail_args) (lra : layoutrecall_args)
    (nda : notify_device_args) (da : delegrecall_args) : Prop :=
    (queue_invalidate env ia =
      [Event.opInvalidate ia.export_ ia.obj ia.flags] ++
        (ia.cb.map fun c => Event.cbFsal c ia.cb_arg
          ((env.up_ops ia.export_).invalidate ia.export_ ia.obj
            ia.flags)).toList ++ [Event.free]) ∧
    (queue_update env ua =
      [Event.opUpdate ua.export_ ua.obj ua.attr ua.flags] ++
        (ua.cb.map fun c => Event.cbFsal c ua.cb_arg
          ((env.up_ops ua.export_).update ua.export_ ua.obj ua.attr
            ua.flags)).toList ++ [Event.free]) ∧
    (queue_lock_grant env la =
      [Event.opLockGrant la.export_ la.file la.owner la.lock_param] ++
        (la.cb.map fun c => Event.cbState c la.cb_arg
          ((env.up_ops la.export_).lock_grant la.export_ la.file la.owner
            la.lock_param)).toList ++ [Event.free]) ∧
    (queue_lock_avail env lva =
      [Event.opLockAvail lva.export_ lva.file lva.owner lva.lock_param] ++
        (lva.cb.map fun c => Event.cbState c lva.cb_arg
          ((env.up_ops lva.export_).lock_avail lva.export_ lva.file lva.owner
            lva.lock_param)).toList ++ [Event.free]) ∧
    (queue_layoutrecall env lra =
      [Event.opLayoutrecall lra.export_ lra.handle lra.layout_type lra.changed
          lra.segment lra.cookie
          (if lra.spec.how = layoutrecall_howspec.layoutrecall_not_specced
            then none else some lra.spec)] ++
        (lra.cb.map fun c => Event.cbState c lra.cb_arg
          ((env.up_ops lra.export_).layoutrecall lra.export_ lra.handle
            lra.layout_type lra.changed lra.segment lra.cookie
            (if lra.spec.how = layoutrecall_howspec.layoutrecall_not_specced
              then none else some lra.spec))).toList ++ [Event.free]) ∧
    (queue_notify_device env nda =
      [Event.opNotifyDevice nda.notify_type nda.layout_type nda.devid
          nda.immediate] ++
        (nda.cb.map fun c => Event.cbState c nda.cb_arg
          ((env.up_ops nda.export_).notify_device nda.notify_type
            nda.layout_type nda.devid nda.immediate)).toList ++
        [Event.free]) ∧
    ((queue_notify_device env nda).all
      (fun ev => (eventExportArg ev).isNone) = true) ∧
    (up_queue_delegrecall env da =
      [Event.opDelegrecall da.export_ da.handle] ++
        (da.cb.map fun c => Event.cbState c da.cb_arg
          ((env.up_ops da.export_).delegrecall da.export_
            da.handle)).toList ++ [Event.free])

/-- Amended claim C4 (the original fails on notify_device, see the
counterexample): six of the seven worker entry points pass the export itself
together with the key/handle and the operation-specific arguments to the
slot reached through the task's export; the notify_device worker reaches its
slot through the task's export but passes only the four fixed arguments —
no export and no key appear anywhere in its trace. -/
theorem c4_dispatch_through_export
    (env : UpEnv) (ia : invalidate_args) (ua : update_args)
    (la : lock_grant_args) (lva : lock_avail_args) (lra : layoutrecall_args)
    (nda : notify_device_args) (da : delegrecall_args) :
    c4_statement env ia ua la lva lra nda da := by
  unfold c4_statement
  refine ⟨?_, ?_, ?_, ?_, ?_, ?_, ?_, ?_⟩
  · cases hc : ia.cb <;> simp [queue_invalidate, hc]
  · cases hc : ua.cb <;> simp [queue_update, hc]
  · cases hc : la.cb <;> simp [queue_lock_grant, hc]
  · cases hc : lva.cb <;> simp [queue_lock_avail, hc]
  · cases hc : lra.cb <;> simp [queue_layoutrecall, hc]
  · cases hc : nda.cb <;> simp [queue_notify_device, hc]
  · cases hc : nda.cb <;> simp [queue_notify_device, hc, eventExportArg]
  · cases hc : da.cb <;> simp [up_queue_delegrecall, hc]

/- ===================== C5 ===================== -/

/-- Counterexample to C5 as stated: the caller passes a present recall
specification (pointer `0`, whose pointee in `m0` carries the sentinel
`layoutrecall_not_specced` tag with payload 5); the pool accepts; yet the
worker passes the absent-specification indicator (`none`) to the
layoutrecall entry point — not a specification equal to the caller's
by-value copy. -/
theorem c5_counterexample_present_sentinel_spec_becomes_absent :
    (up_async_layoutrecall { rc := 0 } env0 m0 { ref := 1 }
        { addr := 10, len := 2 } 3 true 4 6 (some 0) none
        0).handedToPool.map (fun t => (queue_layoutrecall env0 t).head?) =
      some (some (Event.opLayoutrecall { ref := 1 } [10, 11] 3 true
        { val := 7 } 6 none)) ∧
    m0.specs 0 =
      { how := layoutrecall_howspec.layoutrecall_not_specced, u := 5 } ∧
    (none : Option layoutrecall_spec) ≠ some (m0.specs 0) := by
  decide

/-- The amended C5 property: with an absent (null) caller specification,
packaging stores the `layoutrecall_not_specced` sentinel in the by-value
field and the worker passes the absent indicator; with a present caller
specification, packaging stores the caller's by-value copy and the worker
passes that copy — unless its tag is itself the sentinel, in which case the
worker passes the absent indicator. -/
def c5_statement (fr : fridgethr) (env : UpEnv) (m : CallerMem)
    (e : fsal_export) (handle : gsh_buffdesc) (lt : layouttype4) (ch : Bool)
    (seg : Nat) (cookie : Nat) (p : Nat) (cb : Option Nat) (cb_arg : Nat) :
    Prop :=
    ((up_async_layoutrecall fr env m e handle lt ch seg cookie none cb
        cb_arg).handedToPool.map (fun t => t.spec.how) =
      some layoutrecall_howspec.layoutrecall_not_specced) ∧
    ((up_async_layoutrecall fr env m e handle lt ch seg cookie none cb
        cb_arg).handedToPool.map
        (fun t => (queue_layoutrecall env t).head?) =
      some (some (Event.opLayoutrecall e
        (readBytes m.bytes handle.addr handle.len) lt ch (m.segments seg)
        cookie none))) ∧
    ((up_async_layoutrecall fr env m e handle lt ch seg cookie (some p) cb
        cb_arg).handedToPool.map (fun t => t.spec) = some (m.specs p)) ∧
    ((up_async_layoutrecall fr env m e handle lt ch seg cookie (some p) cb
        cb_arg).handedToPool.map
        (fun t => (queue_layoutrecall env t).head?) =
      some (some (Event.opLayoutrecall e
        (readBytes m.bytes handle.addr handle.len) lt ch (m.segments seg)
        cookie
        (if (m.specs p).how = layoutrecall_howspec.layoutrecall_not_specced
          then none else some (m.specs p)))))

/-- Amended claim C5 (the original fails when a present caller specification
itself carries the sentinel tag, see the counterexample): an absent caller
specification is stored as the sentinel and reaches the entry point as the
absent indicator; a present one is stored by value and reaches the entry
point as that copy exactly when its tag is not the sentinel. -/
theorem c5_layoutrecall_spec_sentinel
    (fr : fridgethr) (env : UpEnv) (m : CallerMem) (e : fsal_export)
    (handle : gsh_buffdesc) (lt : layouttype4) (ch : Bool) (seg : Nat)
    (cookie : Nat) (p : Nat) (cb : Option Nat) (cb_arg : Nat)
    (h : fr.rc = 0) :
    c5_statement fr env m e handle lt ch seg cookie p cb cb_arg := by
  unfold c5_statement
  refine ⟨?_, ?_, ?_, ?_⟩ <;>
    simp [up_async_layoutrecall, queue_layoutrecall, fridgethr_submit, h]

/-- Witness for C5 at concrete inputs: pool accepts; the present
specification at pointer 1 carries a non-sentinel tag. -/
theorem c5_layoutrecall_spec_sentinel_witness :
    c5_statement { rc := 0 } env0 m0 { ref := 1 } { addr := 10, len := 2 }
      3 true 4 6 1 (some 11) 12 :=
  c5_layoutrecall_spec_sentinel { rc := 0 } env0 m0 { ref := 1 }
    { addr := 10, len := 2 } 3 true 4 6 1 (some 11) 12 rfl

/- ===================== C6 ===================== -/

/-- A caller memory agreeing with `m0` only at the cells a concrete
submission dereferences (bytes `[10, 26)`, attrs at 2, lock params at 4,
segments at 6, devids at 9, specs at 1); everything else differs. -/
def m2fix : CallerMem :=
  { bytes := fun a => if 10 ≤ a ∧ a < 26 then a % 256 else 77,
    attrs := fun q => if q = 2 then m0.attrs 2 else { val := 500 },
    lock_params := fun q => if q = 4 then m0.lock_params 4 else { val := 501 },
    segments := fun q => if q = 6 then m0.segments 6 else { val := 502 },
    devids := fun q => if q = 9 then m0.devids 9 else { val := 503 },
    specs := fun q => if q = 1 then m0.specs 1 else
      { how := layoutrecall_howspec.layoutrecall_howspec_outstanding,
        u := 504 } }

/-- The C6 property at given inputs: every fixed-size operation-specific
argument is stored in the task by value, equal to what the caller's memory
held at submission time; and each `up_async_*` call's entire outcome is
unchanged under any caller memory agreeing only at the dereferenced cells
(so later mutation of the caller's argument objects cannot affect the
values the worker hands over). -/
def c6_statement (fr : fridgethr) (env : UpEnv) (m m2 : CallerMem)
    (e : fsal_export) (obj : gsh_buffdesc) (flags : Nat) (attr : Nat)
    (owner : Nat) (lockp : Nat) (lt : layouttype4) (ch : Bool) (seg : Nat)
    (cookie : Nat) (p : Nat) (nt : notify_deviceid_type4) (devid : Nat)
    (imm : Bool) (cb : Option Nat) (cb_arg : Nat) : Prop :=
    ((up_async_invalidate fr env m e obj flags cb cb_arg).handedToPool.map
        (fun t => t.flags) = some flags) ∧
    ((up_async_update fr env m e obj attr flags cb cb_arg).handedToPool.map
        (fun t => (t.attr, t.flags)) = some (m.attrs attr, flags)) ∧
    ((up_async_lock_grant fr env m e obj owner lockp cb
        cb_arg).handedToPool.map (fun t => t.lock_param) =
      some (m.lock_params lockp)) ∧
    ((up_async_lock_avail fr env m e obj owner lockp cb
        cb_arg).handedToPool.map (fun t => t.lock_param) =
      some (m.lock_params lockp)) ∧
    ((up_async_layoutrecall fr env m e obj lt ch seg cookie (some p) cb
        cb_arg).handedToPool.map
        (fun t => (t.layout_type, t.changed, t.segment, t.cookie, t.spec)) =
      some (lt, ch, m.segments seg, cookie, m.specs p)) ∧
    ((up_async_notify_device fr env m e nt lt devid imm cb
        cb_arg).handedToPool.map
        (fun t => (t.notify_type, t.layout_type, t.devid, t.immediate)) =
      some (nt, lt, m.devids devid, imm)) ∧
    (up_async_invalidate fr env m2 e obj flags cb cb_arg =
      up_async_invalidate fr env m e obj flags cb cb_arg) ∧
    (up_async_update fr env m2 e obj attr flags cb cb_arg =
      up_async_update fr env m e obj attr flags cb cb_arg) ∧
    (up_async_lock_grant fr env m2 e obj owner lockp cb cb_arg =
      up_async_lock_grant fr env m e obj owner lockp cb cb_arg) ∧
    (up_async_lock_avail fr env m2 e obj owner lockp cb cb_arg =
      up_async_lock_avail fr env m e obj owner lockp cb cb_arg) ∧
    (up_async_layoutrecall fr env m2 e obj lt ch seg cookie (some p) cb
        cb_arg =
      up_async_layoutrecall fr env m e obj lt ch seg cookie (some p) cb
        cb_arg) ∧
    (up_async_notify_device fr env m2 e nt lt devid imm cb cb_arg =
      up_async_notify_device fr env m e nt lt devid imm cb cb_arg) ∧
    (up_async_delegrecall fr env m2 e obj cb cb_arg =
      up_async_delegrecall fr env m e obj cb cb_arg)

/-- Claim C6: all fixed-size operation-specific arguments (flags, attribute
set, lock parameters, layout type, changed flag, segment, device id, notify
type, immediate flag, recall specification) are copied by value into the
task at packaging time; the values the worker later hands to the entry
point equal the submission-time values, and mutating the caller's argument
objects afterwards (modelled by any caller memory agreeing only on the
dereferenced cells) changes nothing. -/
theorem c6_fixed_args_copied_by_value
    (fr : fridgethr) (env : UpEnv) (m m2 : CallerMem) (e : fsal_export)
    (obj : gsh_buffdesc) (flags : Nat) (attr : Nat) (owner : Nat)
    (lockp : Nat) (lt : layouttype4) (ch : Bool) (seg : Nat) (cookie : Nat)
    (p : Nat) (nt : notify_deviceid_type4) (devid : Nat) (imm : Bool)
    (cb : Option Nat) (cb_arg : Nat)
    (h : fr.rc = 0)
    (hb : ∀ i, i < obj.len → m2.bytes (obj.addr + i) = m.bytes (obj.addr + i))
    (ha : m2.attrs attr = m.attrs attr)
    (hl : m2.lock_params lockp = m.lock_params lockp)
    (hs : m2.segments seg = m.segments seg)
    (hd : m2.devids devid = m.devids devid)
    (hsp : m2.specs p = m.specs p) :
    c6_statement fr env m m2 e obj flags attr owner lockp lt ch seg cookie p
      nt devid imm cb cb_arg := by
  unfold c6_statement
  refine ⟨?_, ?_, ?_, ?_, ?_, ?_, ?_, ?_, ?_, ?_, ?_, ?_, ?_⟩ <;>
    simp [up_async_invalidate, up_async_update, up_async_lock_grant,
      up_async_lock_avail, up_async_layoutrecall, up_async_notify_device,
      up_async_delegrecall, fridgethr_submit, h, readBytes_congr hb, ha, hl,
      hs, hd, hsp]

/-- Witness for C6 at concrete inputs: pool accepts; `m2fix` agrees with
`m0` only at the dereferenced cells. -/
theorem c6_fixed_args_copied_by_value_witness :
    c6_statement { rc := 0 } env0 m0 m2fix { ref := 1 }
      { addr := 10, len := 16 } 1 2 3 4 5 true 6 7 1 8 9 true (some 11) 12 :=
  c6_fixed_args_copied_by_value { rc := 0 } env0 m0 m2fix { ref := 1 }
    { addr := 10, len := 16 } 1 2 3 4 5 true 6 7 1 8 9 true (some 11) 12
    rfl (by decide) (by decide) (by decide) (by decide) (by decide)
    (by decide)

/- ===================== C7 ===================== -/

/-- A second concrete capability table, used to show the synchronous status
does not depend on the operation implementations. -/
def vec1 : fsal_up_vector :=
  { invalidate := fun _ _ _ => fsalstat 900 900,
    update := fun _ _ _ _ => fsalstat 901 901,
    lock_grant := fun _ _ _ _ => 902,
    lock_avail := fun _ _ _ _ => 903,
    layoutrecall := fun _ _ _ _ _ _ _ => 904,
    notify_device := fun _ _ _ _ => 905,
    delegrecall := fun _ _ => 906 }

/-- An environment with the same error/status bridge as `env0` but entirely
different operation implementations. -/
def env1 : UpEnv :=
  { env0 with up_ops := fun _ => vec1, delegrecall_impl := fun o => o + 7 }

/-- The C7 property at given inputs: every `up_async_*` entry point returns
exactly `fsalstat (posix2fsal_error rc) rc` for the pool's code `rc`; under
the bridge's zero-to-zero law the status signals success exactly when the
pool accepted; and the status is identical under an environment with
different operation implementations (it never reflects execution results). -/
def c7_statement (fr : fridgethr) (env env2 : UpEnv) (m : CallerMem)
    (e : fsal_export) (obj : gsh_buffdesc) (flags : Nat) (attr : Nat)
    (owner : Nat) (lockp : Nat) (lt : layouttype4) (ch : Bool) (seg : Nat)
    (cookie : Nat) (specp : Option Nat) (nt : notify_deviceid_type4)
    (devid : Nat) (imm : Bool) (cb : Option Nat) (cb_arg : Nat) : Prop :=
    ((up_async_invalidate fr env m e obj flags cb cb_arg).status =
        fsalstat (env.posix2fsal_error fr.rc) fr.rc ∧
      ((up_async_invalidate fr env m e obj flags cb cb_arg).status.major = 0 ↔
        (up_async_invalidate fr env m e obj flags cb
          cb_arg).handedToPool.isSome) ∧
      (up_async_invalidate fr env2 m e obj flags cb cb_arg).status =
        (up_async_invalidate fr env m e obj flags cb cb_arg).status) ∧
    ((up_async_update fr env m e obj attr flags cb cb_arg).status =
        fsalstat (env.posix2fsal_error fr.rc) fr.rc ∧
      ((up_async_update fr env m e obj attr flags cb cb_arg).status.major = 0 ↔
        (up_async_update fr env m e obj attr flags cb
          cb_arg).handedToPool.isSome) ∧
      (up_async_update fr env2 m e obj attr flags cb cb_arg).status =
        (up_async_update fr env m e obj attr flags cb cb_arg).status) ∧
    ((up_async_lock_grant fr env m e obj owner lockp cb cb_arg).status =
        fsalstat (env.posix2fsal_error fr.rc) fr.rc ∧
      ((up_async_lock_grant fr env m e obj owner lockp cb
          cb_arg).status.major = 0 ↔
        (up_async_lock_grant fr env m e obj owner lockp cb
          cb_arg).handedToPool.isSome) ∧
      (up_async_lock_grant fr env2 m e obj owner lockp cb cb_arg).status =
        (up_async_lock_grant fr env m e obj owner lockp cb cb_arg).status) ∧
    ((up_async_lock_avail fr env m e obj owner lockp cb cb_arg).status =
        fsalstat (env.posix2fsal_error fr.rc) fr.rc ∧
      ((up_async_lock_avail fr env m e obj owner lockp cb
          cb_arg).status.major = 0 ↔
        (up_async_lock_avail fr env m e obj owner lockp cb
          cb_arg).handedToPool.isSome) ∧
      (up_async_lock_avail fr env2 m e obj owner lockp cb cb_arg).status =
        (up_async_lock_avail fr env m e obj owner lockp cb cb_arg).status) ∧
    ((up_async_layoutrecall fr env m e obj lt ch seg cookie specp cb
          cb_arg).status = fsalstat (env.posix2fsal_error fr.rc) fr.rc ∧
      ((up_async_layoutrecall fr env m e obj lt ch seg cookie specp cb
          cb_arg).status.major = 0 ↔
        (up_async_layoutrecall fr env m e obj lt ch seg cookie specp cb
          cb_arg).handedToPool.isSome) ∧
      (up_async_layoutrecall fr env2 m e obj lt ch seg cookie specp cb
          cb_arg).status =
        (up_async_layoutrecall fr env m e obj lt ch seg cookie specp cb
          cb_arg).status) ∧
    ((up_async_notify_device fr env m e nt lt devid imm cb cb_arg).status =
        fsalstat (env.posix2fsal_error fr.rc) fr.rc ∧
      ((up_async_notify_device fr env m e nt lt devid imm cb
          cb_arg).status.major = 0 ↔
        (up_async_notify_device fr env m e nt lt devid imm cb
          cb_arg).handedToPool.isSome) ∧
      (up_async_notify_device fr env2 m e nt lt devid imm cb cb_arg).status =
        (up_async_notify_device fr env m e nt lt devid imm cb
          cb_arg).status) ∧
    ((up_async_delegrecall fr env m e obj cb cb_arg).status =
        fsalstat (env.posix2fsal_error fr.rc) fr.rc ∧
      ((up_async_delegrecall fr env m e obj cb cb_arg).status.major = 0 ↔
        (up_async_delegrecall fr env m e obj cb cb_arg).handedToPool.isSome) ∧
      (up_async_delegrecall fr env2 m e obj cb cb_arg).status =
        (up_async_delegrecall fr env m e obj cb cb_arg).status)

/-- Claim C7: every `up_async_*` entry point returns exactly the fsal status
built by `fsalstat (posix2fsal_error rc) rc` from the pool's submission code
`rc`; given the bridge's documented zero-to-zero law it indicates success
exactly when the pool accepted the task; and it never reflects the
operation's execution result (it is unchanged under arbitrary replacement of
the operation implementations, which have not even run yet). -/
theorem c7_status_is_bridged_submission_code
    (fr : fridgethr) (env env2 : UpEnv) (m : CallerMem) (e : fsal_export)
    (obj : gsh_buffdesc) (flags : Nat) (attr : Nat) (owner : Nat)
    (lockp : Nat) (lt : layouttype4) (ch : Bool) (seg : Nat) (cookie : Nat)
    (specp : Option Nat) (nt : notify_deviceid_type4) (devid : Nat)
    (imm : Bool) (cb : Option Nat) (cb_arg : Nat)
    (hzero : ∀ c, env.posix2fsal_error c = 0 ↔ c = 0)
    (hpe : env2.posix2fsal_error = env.posix2fsal_error) :
    c7_statement fr env env2 m e obj flags attr owner lockp lt ch seg cookie
      specp nt devid imm cb cb_arg := by
  unfold c7_statement
  by_cases hrc : fr.rc = 0 <;>
    refine ⟨⟨?_, ?_, ?_⟩, ⟨?_, ?_, ?_⟩, ⟨?_, ?_, ?_⟩, ⟨?_, ?_, ?_⟩,
      ⟨?_, ?_, ?_⟩, ⟨?_, ?_, ?_⟩, ⟨?_, ?_, ?_⟩⟩ <;>
    simp [up_async_invalidate, up_async_update, up_async_lock_grant,
      up_async_lock_avail, up_async_layoutrecall, up_async_notify_device,
      up_async_delegrecall, fridgethr_submit, fsalstat, hrc, hzero, hpe]

/-- Witness for C7 at concrete inputs: `env1` shares `env0`'s bridge but has
entirely different operation implementations; the pool rejects with code 11. -/
theorem c7_status_is_bridged_submission_code_witness :
    c7_statement { rc := 11 } env0 env1 m0 { ref := 1 }
      { addr := 10, len := 16 } 1 2 3 4 5 true 6 7 (some 1) 8 9 true
      (some 11) 12 :=
  c7_status_is_bridged_submission_code { rc := 11 } env0 env1 m0 { ref := 1 }
    { addr := 10, len := 16 } 1 2 3 4 5 true 6 7 (some 1) 8 9 true (some 11)
    12 (by intro c; by_cases hc : c = 0 <;> simp [env0, hc]) rfl

/- ===================== C8 ===================== -/

/-- Claim C8: the direct delegation-recall path.  `async_delegrecall`
performs no packaging and no allocation (its synchronous event list is
empty) and hands the caller's object reference itself to the pool exactly
when the pool accepts; its worker entry point `queue_delegrecall` invokes
`delegrecall_impl` directly on that object and nothing else — no callback
event, no free event — and its trace is independent of what
`delegrecall_impl` returns (the result is discarded). -/
theorem c8_direct_delegrecall_no_packaging
    (fr : fridgethr) (env env2 : UpEnv) (obj : Nat) :
    (async_delegrecall fr obj).syncEvents = [] ∧
    (async_delegrecall fr obj).handedToPool =
      (if fr.rc = 0 then some obj else none) ∧
    queue_delegrecall env obj = [Event.opDelegrecallImpl obj] ∧
    queue_delegrecall env2 obj = queue_delegrecall env obj := by
  refine ⟨rfl, ?_, rfl, rfl⟩
  by_cases hrc : fr.rc = 0 <;>
    simp [async_delegrecall, fridgethr_submit, hrc]

/- ===================== C9 ===================== -/

/-- The C9 property at given inputs: for lock grant, lock avail and layout
recall, the worker passes the caller's `owner` / `cookie` pointer values
unchanged to the entry point, and the call's entire outcome is independent
of caller memory except for the key bytes and the dereferenced lock-param /
segment / spec cells — in particular nothing the owner or cookie pointers
refer to is read or copied into the task. -/
def c9_statement (fr : fridgethr) (env : UpEnv) (m m2 : CallerMem)
    (e : fsal_export) (obj : gsh_buffdesc) (owner : Nat) (lockp : Nat)
    (lt : layouttype4) (ch : Bool) (seg : Nat) (cookie : Nat) (p : Nat)
    (cb : Option Nat) (cb_arg : Nat) : Prop :=
    ((up_async_lock_grant fr env m e obj owner lockp cb
        cb_arg).handedToPool.map
        (fun t => (queue_lock_grant env t).head?) =
      some (some (Event.opLockGrant e (readBytes m.bytes obj.addr obj.len)
        owner (m.lock_params lockp)))) ∧
    ((up_async_lock_avail fr env m e obj owner lockp cb
        cb_arg).handedToPool.map
        (fun t => (queue_lock_avail env t).head?) =
      some (some (Event.opLockAvail e (readBytes m.bytes obj.addr obj.len)
        owner (m.lock_params lockp)))) ∧
    ((up_async_layoutrecall fr env m e obj lt ch seg cookie (some p) cb
        cb_arg).handedToPool.map
        (fun t => (queue_layoutrecall env t).head?) =
      some (some (Event.opLayoutrecall e (readBytes m.bytes obj.addr obj.len)
        lt ch (m.segments seg) cookie
        (if (m.specs p).how = layoutrecall_howspec.layoutrecall_not_specced
          then none else some (m.specs p))))) ∧
    ((up_async_lock_grant fr env m e obj owner lockp cb
        cb_arg).handedToPool.map (fun t => t.owner) = some owner) ∧
    ((up_async_lock_avail fr env m e obj owner lockp cb
        cb_arg).handedToPool.map (fun t => t.owner) = some owner) ∧
    ((up_async_layoutrecall fr env m e obj lt ch seg cookie (some p) cb
        cb_arg).handedToPool.map (fun t => t.cookie) = some cookie) ∧
    (up_async_lock_grant fr env m2 e obj owner lockp cb cb_arg =
      up_async_lock_grant fr env m e obj owner lockp cb cb_arg) ∧
    (up_async_lock_avail fr env m2 e obj owner lockp cb cb_arg =
      up_async_lock_avail fr env m e obj owner lockp cb cb_arg) ∧
    (up_async_layoutrecall fr env m2 e obj lt ch seg cookie (some p) cb
        cb_arg =
      up_async_layoutrecall fr env m e obj lt ch seg cookie (some p) cb
        cb_arg)

/-- Claim C9: for `up_async_lock_grant`, `up_async_lock_avail` and
`up_async_layoutrecall`, the `owner` and `cookie` arguments are captured
only as pointer values: the worker passes the identical value to the entry
point, and no data they refer to is copied into the task (the outcome is
unchanged under any caller memory agreeing only on the key bytes and the
lock-param / segment / spec cells, regardless of content at the owner or
cookie addresses). -/
theorem c9_owner_cookie_captured_as_pointers
    (fr : fridgethr) (env : UpEnv) (m m2 : CallerMem) (e : fsal_export)
    (obj : gsh_buffdesc) (owner : Nat) (lockp : Nat) (lt : layouttype4)
    (ch : Bool) (seg : Nat) (cookie : Nat) (p : Nat) (cb : Option Nat)
    (cb_arg : Nat)
    (h : fr.rc = 0)
    (hb : ∀ i, i < obj.len → m2.bytes (obj.addr + i) = m.bytes (obj.addr + i))
    (hl : m2.lock_params lockp = m.lock_params lockp)
    (hs : m2.segments seg = m.segments seg)
    (hsp : m2.specs p = m.specs p) :
    c9_statement fr env m m2 e obj owner lockp lt ch seg cookie p cb cb_arg := by
  unfold c9_statement
  refine ⟨?_, ?_, ?_, ?_, ?_, ?_, ?_, ?_, ?_⟩ <;>
    simp [up_async_lock_grant, queue_lock_grant, up_async_lock_avail,
      queue_lock_avail, up_async_layoutrecall, queue_layoutrecall,
      fridgethr_submit, h, readBytes_congr hb, hl, hs, hsp]

/-- Witness for C9 at concrete inputs: pool accepts; `m2fix` differs from
`m0` everywhere except the key range and the dereferenced cells — in
particular at the owner address (3) and cookie address (7). -/
theorem c9_owner_cookie_captured_as_pointers_witness :
    c9_statement { rc := 0 } env0 m0 m2fix { ref := 1 }
      { addr := 10, len := 16 } 3 4 5 true 6 7 1 (some 11) 12 :=
  c9_owner_cookie_captured_as_pointers { rc := 0 } env0 m0 m2fix { ref := 1 }
    { addr := 10, len := 16 } 3 4 5 true 6 7 1 (some 11) 12
    rfl (by decide) (by decide) (by decide) (by decide)

/- ===================== C10 ===================== -/

/-- Claim C10: `async_delegrecall` returns the pool's submission code
directly as a raw integer — `fridgethr_submit`'s result, with no
`posix2fsal_error`/`fsalstat` conversion — and that integer is `0` exactly
when the object was handed to the pool. -/
theorem c10_async_delegrecall_returns_raw_code (fr : fridgethr) (obj : Nat) :
    (async_delegrecall fr obj).rc = fridgethr_submit fr ∧
    ((async_delegrecall fr obj).rc = 0 ↔
      (async_delegrecall fr obj).handedToPool = some obj) := by
  by_cases hrc : fr.rc = 0 <;>
    simp [async_delegrecall, fridgethr_submit, hrc]
